import Mathlib

/-
Verification of the timetable generation core (backend/app/utils/timetable.py).

Shallow embedding conventions:
- calendar dates are ordinal day numbers (Nat); the weekday name emitted by
  strftime is represented by the residue date % 7;
- wall-clock times (HH:MM strings) are minutes of the day (Nat); the Python
  datetime arithmetic current_time + 1 hour followed by .time() reduces to
  (minutes + 60) % 1440;
- Mongo ObjectId strings are Nat identifiers;
- the per-call schedule matrix (dict of sets) is a pair of functions from
  resource id to the list of occupied slot keys, where set.add is modelled by
  insert-if-absent;
- the one field the algorithm reads with a bare dict index on a caller
  supplied record (batch["subjects"], line 38) is an Option field, and the
  surrounding try/except of generate_timetable is an Except value whose error
  carries the conflict log accumulated at the moment the exception is raised,
  matching the instance attribute self.conflicts surviving the exception.
- .get accesses with defaults (sections, classes_per_week,
  max_classes_per_day) are Option fields read through getD.
-/

namespace TT

/-- Slot occupancy key: the Python string f-string of date and start time,
abstracted to the injective pair (date, start_time). -/
abbrev SlotKey := Nat × Nat

/-- A generated time slot (dict built by _generate_time_slots). -/
structure Slot where
  date : Nat
  day : Nat
  start_time : Nat
  end_time : Nat
deriving DecidableEq

/-- Teacher record snapshot: _id, subjects (default empty),
max_classes_per_day read with default 6. -/
structure Teacher where
  id : Nat
  subjects : List Nat
  max_classes_per_day : Option Nat
deriving DecidableEq

/-- Classroom record snapshot; only _id is read by the core. -/
structure Classroom where
  id : Nat
deriving DecidableEq

/-- Subject record snapshot: _id, name, classes_per_week read with default 2. -/
structure Subject where
  id : Nat
  name : String
  classes_per_week : Option Nat
deriving DecidableEq

/-- Batch record snapshot: _id, subjects read with a bare index (may be
missing, raising KeyError), sections read with default singleton A. -/
structure Batch where
  id : Nat
  subjects : Option (List Nat)
  sections : Option (List String)
deriving DecidableEq

/-- Output row (TimetableSlot model): one ScheduledEntry. -/
structure TimetableSlot where
  day : Nat
  start_time : Nat
  end_time : Nat
  subject_id : Nat
  teacher_id : Nat
  classroom_id : Nat
  batch_id : Nat
  sec : String
deriving DecidableEq

/-- Conflict log entries, one constructor per f-string the code appends. -/
inductive Conflict where
  | noTeacher (subject_name : String) (start_time day : Nat)
  | noClassroom (subject_name : String) (start_time day : Nat)
  | failure (msg : String)
deriving DecidableEq

/-- Generation request parameters consumed by the core. -/
structure TimetableRequest where
  start_date : Nat
  end_date : Nat
  working_days : List Nat
  start_time : Nat
  end_time : Nat
deriving DecidableEq

/-- The schedule matrix: teacher_schedule and classroom_schedule dicts of
occupied-key sets. -/
structure ScheduleMatrix where
  teacher_schedule : Nat → List SlotKey
  classroom_schedule : Nat → List SlotKey

/-- slot_key = f-string of date and start_time. -/
def slotKey (ts : Slot) : SlotKey := (ts.date, ts.start_time)

/-- Python set.add on the occupancy set. -/
def addKey (l : List SlotKey) (k : SlotKey) : List SlotKey :=
  if k ∈ l then l else k :: l

/-- Point update of one resource schedule in the matrix. -/
def updSched (f : Nat → List SlotKey) (i : Nat) (k : SlotKey) : Nat → List SlotKey :=
  fun j => if j = i then addKey (f i) k else f j

/-- _initialize_schedule_matrix: every schedule set starts empty. -/
def init_schedule_matrix : ScheduleMatrix := ⟨fun _ => [], fun _ => []⟩

/-- Number of occupied keys of one resource on one date: the day_slots
filter of _find_available_teacher_for_slot. -/
def dayCount (l : List SlotKey) (d : Nat) : Nat :=
  (l.filter (fun k => decide (k.1 = d))).length

/-- Inner while loop of _generate_time_slots, run for its exact iteration
count: each pass emits the hour slot when its end time of day stays within
the window, then advances one hour. -/
def hourSlotsAux (date end_t : Nat) : Nat → Nat → List Slot
  | 0, _ => []
  | n + 1, cur =>
    (if (cur + 60) % 1440 ≤ end_t then
      [{ date := date, day := date % 7, start_time := cur % 1440,
         end_time := (cur + 60) % 1440 }]
     else []) ++ hourSlotsAux date end_t n (cur + 60)

/-- Hour slots of one working day; the while condition current_time < day_end
runs the body exactly ceil((end - start) / 60) times. -/
def hour_slots (date start_t end_t : Nat) : List Slot :=
  hourSlotsAux date end_t ((end_t - start_t + 59) / 60) start_t

/-- Outer while loop over the inclusive date range of _generate_time_slots,
run for its exact day count. -/
def dayLoopAux (wd : List Nat) (start_t end_t : Nat) : Nat → Nat → List Slot
  | 0, _ => []
  | n + 1, cur =>
    (if cur % 7 ∈ wd then hour_slots cur start_t end_t else []) ++
      dayLoopAux wd start_t end_t n (cur + 1)

/-- _generate_time_slots. -/
def generate_time_slots (req : TimetableRequest) : List Slot :=
  dayLoopAux req.working_days req.start_time req.end_time
    (req.end_date + 1 - req.start_date) req.start_date

/-- _find_available_teachers: filter by declared subject (empty set means
any subject), else fall back to the first roster teacher. -/
def find_available_teachers (subject : Subject) (teachers : List Teacher) : List Teacher :=
  let available := teachers.filter
    (fun t => decide (subject.id ∈ t.subjects) || decide (t.subjects = []))
  if available = [] then teachers.take 1 else available

/-- _find_available_teacher_for_slot: first teacher whose set misses the key
and whose distinct occupied keys on the date are below the daily cap. -/
def find_available_teacher_for_slot (teachers : List Teacher) (ts : Slot)
    (m : ScheduleMatrix) : Option Teacher :=
  teachers.find? (fun t =>
    decide (slotKey ts ∉ m.teacher_schedule t.id) &&
    decide (dayCount (m.teacher_schedule t.id) ts.date < t.max_classes_per_day.getD 6))

/-- _find_available_classroom_for_slot: first classroom whose set misses the key. -/
def find_available_classroom_for_slot (classrooms : List Classroom) (ts : Slot)
    (m : ScheduleMatrix) : Option Classroom :=
  classrooms.find? (fun c => decide (slotKey ts ∉ m.classroom_schedule c.id))

/-- Result of one _try_assign_slot call: returned flag plus the three pieces
of mutable state the Python method updates in place. -/
structure AssignResult where
  assigned : Bool
  matrix : ScheduleMatrix
  conflicts : List Conflict
  batch_slots : List TimetableSlot

/-- _try_assign_slot. -/
def try_assign_slot (batch : Batch) (subject : Subject)
    (available_teachers : List Teacher) (classrooms : List Classroom)
    (ts : Slot) (m : ScheduleMatrix) (conflicts : List Conflict)
    (batch_slots : List TimetableSlot) : AssignResult :=
  match find_available_teacher_for_slot available_teachers ts m with
  | none =>
    ⟨false, m, conflicts ++ [Conflict.noTeacher subject.name ts.start_time ts.day],
      batch_slots⟩
  | some teacher =>
    match find_available_classroom_for_slot classrooms ts m with
    | none =>
      ⟨false, m, conflicts ++ [Conflict.noClassroom subject.name ts.start_time ts.day],
        batch_slots⟩
    | some classroom =>
      let key := slotKey ts
      let m2 : ScheduleMatrix :=
        ⟨updSched m.teacher_schedule teacher.id key,
         updSched m.classroom_schedule classroom.id key⟩
      let rows := (batch.sections.getD ["A"]).map (fun s =>
        { day := ts.day, start_time := ts.start_time, end_time := ts.end_time,
          subject_id := subject.id, teacher_id := teacher.id,
          classroom_id := classroom.id, batch_id := batch.id, sec := s })
      ⟨true, m2, conflicts, batch_slots ++ rows⟩

/-- Loop state of the per-subject while loop: the mutable state threaded by
the Python code plus the local loop variables slot_index and
classes_assigned; remaining is the unconsumed tail of the slot list, kept in
lockstep with slot_index. -/
structure AssignState where
  matrix : ScheduleMatrix
  conflicts : List Conflict
  batch_slots : List TimetableSlot
  remaining : List Slot
  slot_index : Nat
  classes_assigned : Nat

/-- The while classes_assigned < classes_needed and slot_index < len loop of
_generate_batch_timetable: one attempt per slot, the cursor always advances. -/
def assignLoop (batch : Batch) (subject : Subject)
    (available_teachers : List Teacher) (classrooms : List Classroom)
    (classes_needed : Nat) :
    List Slot → Nat → Nat → ScheduleMatrix → List Conflict →
    List TimetableSlot → AssignState
  | [], slot_index, classes_assigned, m, c, bs =>
    ⟨m, c, bs, [], slot_index, classes_assigned⟩
  | ts :: rest, slot_index, classes_assigned, m, c, bs =>
    if classes_assigned < classes_needed then
      let r := try_assign_slot batch subject available_teachers classrooms ts m c bs
      assignLoop batch subject available_teachers classrooms classes_needed rest
        (slot_index + 1)
        (if r.assigned then classes_assigned + 1 else classes_assigned)
        r.matrix r.conflicts r.batch_slots
    else ⟨m, c, bs, ts :: rest, slot_index, classes_assigned⟩

/-- weeks = max 1 (number of distinct slot dates / 7). -/
def weeksOf (time_slots : List Slot) : Nat :=
  max 1 ((time_slots.map (fun s => s.date)).dedup.length / 7)

/-- The subject_requirements dict built before the assignment loop; later
subjects with the same id overwrite earlier ones, as dict assignment does. -/
def buildReqs (time_slots : List Slot) (subjects : List Subject) : Nat → Nat :=
  subjects.foldl
    (fun f s => fun i =>
      if i = s.id then s.classes_per_week.getD 2 * weeksOf time_slots else f i)
    (fun _ => 0)

/-- State returned by one batch pass: the shared mutable state plus the final
cursor of the batch-local slot_index. -/
structure BatchState where
  matrix : ScheduleMatrix
  conflicts : List Conflict
  batch_slots : List TimetableSlot
  remaining : List Slot
  slot_index : Nat

/-- The for subject in subjects loop of _generate_batch_timetable; the slot
cursor is threaded from one subject to the next, never reset. -/
def subjectsLoop (batch : Batch) (teachers : List Teacher)
    (classrooms : List Classroom) (reqs : Nat → Nat) :
    List Subject → List Slot → Nat → ScheduleMatrix → List Conflict →
    List TimetableSlot → BatchState
  | [], remaining, slot_index, m, c, bs => ⟨m, c, bs, remaining, slot_index⟩
  | s :: rest, remaining, slot_index, m, c, bs =>
    let avail := find_available_teachers s teachers
    let r := assignLoop batch s avail classrooms (reqs s.id) remaining
      slot_index 0 m c bs
    subjectsLoop batch teachers classrooms reqs rest r.remaining r.slot_index
      r.matrix r.conflicts r.batch_slots

/-- _generate_batch_timetable: requirements dict, then the subject loop with
a fresh cursor and a fresh batch_slots accumulator. -/
def generate_batch_timetable (batch : Batch) (subjects : List Subject)
    (teachers : List Teacher) (classrooms : List Classroom)
    (time_slots : List Slot) (m : ScheduleMatrix)
    (conflicts : List Conflict) : BatchState :=
  subjectsLoop batch teachers classrooms (buildReqs time_slots subjects)
    subjects time_slots 0 m conflicts []

/-- The for batch in batches loop of generate_timetable. A batch record
without the subjects key raises KeyError at the comprehension on line 38;
the error value carries the conflict log accumulated so far, because the log
lives on the instance and survives the exception. -/
def batchesLoop (subjects : List Subject) (teachers : List Teacher)
    (classrooms : List Classroom) (time_slots : List Slot) :
    List Batch → ScheduleMatrix → List Conflict → List TimetableSlot →
    Except (String × List Conflict)
      (List TimetableSlot × List Conflict × ScheduleMatrix)
  | [], m, c, acc => Except.ok (acc, c, m)
  | b :: rest, m, c, acc =>
    match b.subjects with
    | none => Except.error ("subjects", c)
    | some bsubj =>
      let batch_subjects := subjects.filter (fun s => decide (s.id ∈ bsubj))
      let r := generate_batch_timetable b batch_subjects teachers classrooms
        time_slots m c
      batchesLoop subjects teachers classrooms time_slots rest r.matrix
        r.conflicts (acc ++ r.batch_slots)

/-- generate_timetable with the record snapshots already fetched from the
storage collaborator. The try/except wrapper: on success the accumulated
slots and conflicts are returned; on an exception the slots are discarded
and one synthetic failure message is appended to the surviving log. -/
def generate_timetable (req : TimetableRequest) (batches : List Batch)
    (subjects : List Subject) (teachers : List Teacher)
    (classrooms : List Classroom) : List TimetableSlot × List Conflict :=
  let time_slots := generate_time_slots req
  match batchesLoop subjects teachers classrooms time_slots batches
      init_schedule_matrix [] [] with
  | Except.ok (slots, c, _) => (slots, c)
  | Except.error (e, c) => ([], c ++ [Conflict.failure e])

/-- Spec-side rendering of the TimeSlotEnumerator sentence, for the
refinement comparison of claim C3: for every date of the inclusive range
whose weekday is permitted, the one-hour slots starting at the window start,
a slot included only if its end does not exceed the window end. -/
def specTimeSlots (req : TimetableRequest) : List Slot :=
  ((List.range' req.start_date (req.end_date + 1 - req.start_date)).filter
      (fun d => decide (d % 7 ∈ req.working_days))).flatMap
    (fun d => (List.range ((req.end_time - req.start_time) / 60)).map
      (fun k => { date := d, day := d % 7,
                  start_time := req.start_time + 60 * k,
                  end_time := req.start_time + 60 * (k + 1) }))

/-- Amended spec-side rendering for claim C3: the inclusion test compares
the slot end reduced to a time of day modulo 24 hours with the window end,
which is what the Python comparison slot_end.time() <= end_time does; a
final slot whose end crosses midnight is therefore kept, with a wrapped
end_time field. -/
def specTimeSlotsMod (req : TimetableRequest) : List Slot :=
  ((List.range' req.start_date (req.end_date + 1 - req.start_date)).filter
      (fun d => decide (d % 7 ∈ req.working_days))).flatMap
    (fun d => ((List.range ((req.end_time - req.start_time + 59) / 60)).filter
        (fun k => decide ((req.start_time + 60 * (k + 1)) % 1440 ≤ req.end_time))).map
      (fun k => { date := d, day := d % 7,
                  start_time := req.start_time + 60 * k,
                  end_time := (req.start_time + 60 * (k + 1)) % 1440 }))

/-- Predicate on conflict entries: the message is one of the two per-attempt
unavailability messages. -/
def attemptMessage (x : Conflict) : Prop :=
  ∃ nm st d, x = Conflict.noTeacher nm st d ∨ x = Conflict.noClassroom nm st d

/-- Daily-cap invariant of claim C2: every roster teacher occupies at most
max_classes_per_day (default 6) slot keys on any single date. -/
def TeacherInv (teachers : List Teacher) (m : ScheduleMatrix) : Prop :=
  ∀ t ∈ teachers, ∀ d,
    dayCount (m.teacher_schedule t.id) d ≤ t.max_classes_per_day.getD 6

/-
Concrete fixtures used by witness and counterexample theorems.
-/

/-- Request: one date, one working weekday, window 09:00 to 11:00. -/
def req0 : TimetableRequest := ⟨0, 0, [0], 540, 660⟩

/-- Request whose window 23:30 to 23:59 makes the single generated slot end
cross midnight. -/
def reqX : TimetableRequest := ⟨0, 0, [0], 1410, 1439⟩

/-- A teacher declared for subject 5. -/
def t1 : Teacher := ⟨1, [5], some 6⟩

/-- A teacher with daily cap 1 and no declared subjects. -/
def t2 : Teacher := ⟨3, [], some 1⟩

/-- A classroom. -/
def room1 : Classroom := ⟨2⟩

/-- Subject 5, one class per week. -/
def subj : Subject := ⟨5, "Math", some 1⟩

/-- Subject 9, taught by no declared teacher. -/
def subj2 : Subject := ⟨9, "Phys", some 1⟩

/-- A batch with one section. -/
def b1 : Batch := ⟨7, some [5], some ["A"]⟩

/-- A batch with two sections. -/
def b2sec : Batch := ⟨7, some [5], some ["A", "B"]⟩

/-- A batch whose sections list is present but empty. -/
def bEmptySec : Batch := ⟨7, some [5], some []⟩

/-- A batch without the sections key. -/
def bNoSec : Batch := ⟨7, some [5], none⟩

/-- A batch record without the subjects key: reading it raises KeyError. -/
def badb : Batch := ⟨8, none, none⟩

/-- A concrete slot at 09:00 on date 0. -/
def ts0 : Slot := ⟨0, 0, 540, 600⟩

/-- A second concrete slot at 10:00 on date 0. -/
def ts1 : Slot := ⟨0, 0, 600, 660⟩

/-- A mid-call matrix: teacher 1 and classroom 2 already hold the 09:00 key. -/
def mPre : ScheduleMatrix :=
  ⟨fun j => if j = 1 then [(0, 540)] else [],
   fun j => if j = 2 then [(0, 540)] else []⟩

/-
Closed forms for the slot enumerator loops.
-/

lemma hourSlotsAux_eq (date end_t : Nat) (n : Nat) : ∀ cur,
    hourSlotsAux date end_t n cur =
      ((List.range n).filter
          (fun k => decide ((cur + 60 * (k + 1)) % 1440 ≤ end_t))).map
        (fun k => (⟨date, date % 7, (cur + 60 * k) % 1440,
                   (cur + 60 * (k + 1)) % 1440⟩ : Slot)) := by
  induction n with
  | zero => intro cur; rfl
  | succ n ih =>
    intro cur
    have hp : ((fun k => decide ((cur + 60 * (k + 1)) % 1440 ≤ end_t)) ∘ Nat.succ)
        = (fun k => decide ((cur + 60 + 60 * (k + 1)) % 1440 ≤ end_t)) := by
      funext k
      rw [Function.comp_apply, decide_eq_decide]
      omega
    have hf : ((fun k => (⟨date, date % 7, (cur + 60 * k) % 1440,
            (cur + 60 * (k + 1)) % 1440⟩ : Slot)) ∘ Nat.succ)
        = (fun k => (⟨date, date % 7, (cur + 60 + 60 * k) % 1440,
            (cur + 60 + 60 * (k + 1)) % 1440⟩ : Slot)) := by
      funext k
      simp only [Function.comp_apply, Slot.mk.injEq, true_and, and_true]
      omega
    rw [hourSlotsAux, ih (cur + 60), List.range_succ_eq_map, List.filter_cons,
      List.filter_map, hp]
    by_cases h : (cur + 60) % 1440 ≤ end_t
    · have hcond : decide ((cur + 60 * (0 + 1)) % 1440 ≤ end_t) = true := by
        rw [decide_eq_true_iff]
        omega
      rw [if_pos h, if_pos hcond]
      simp only [List.map_cons, List.map_map, hf, List.singleton_append]
      congr 1
    · have hcond : ¬ decide ((cur + 60 * (0 + 1)) % 1440 ≤ end_t) = true := by
        rw [decide_eq_true_iff]
        omega
      rw [if_neg h, if_neg hcond]
      simp only [List.map_map, hf, List.nil_append]

lemma dayLoopAux_eq (wd : List Nat) (st et : Nat) (n : Nat) : ∀ cur,
    dayLoopAux wd st et n cur =
      ((List.range' cur n).filter (fun d => decide (d % 7 ∈ wd))).flatMap
        (fun d => hour_slots d st et) := by
  induction n with
  | zero => intro cur; rfl
  | succ n ih =>
    intro cur
    rw [dayLoopAux, ih (cur + 1), List.range'_succ, List.filter_cons]
    by_cases h : cur % 7 ∈ wd
    · rw [if_pos h, if_pos (by rw [decide_eq_true_iff]; exact h)]
      rw [List.flatMap_cons]
    · rw [if_neg h, if_neg (by rw [decide_eq_true_iff]; exact h)]
      rw [List.nil_append]

lemma hour_slots_eq (d st et : Nat) (h : et < 1440) :
    hour_slots d st et =
      ((List.range ((et - st + 59) / 60)).filter
          (fun k => decide ((st + 60 * (k + 1)) % 1440 ≤ et))).map
        (fun k => (⟨d, d % 7, st + 60 * k, (st + 60 * (k + 1)) % 1440⟩ : Slot)) := by
  rw [hour_slots, hourSlotsAux_eq]
  apply List.map_congr_left
  intro k hk
  have h1 : k < (et - st + 59) / 60 := List.mem_range.mp (List.mem_filter.mp hk).1
  have h2 : st + 60 * k < et := by omega
  simp only [Slot.mk.injEq, true_and, and_true]
  omega

/-
Helper lemmas about occupancy sets and resource selection.
-/

lemma mem_addKey {l : List SlotKey} {k' : SlotKey} (k : SlotKey) (h : k' ∈ l) :
    k' ∈ addKey l k := by
  rw [addKey]
  split
  · exact h
  · exact List.mem_cons_of_mem _ h

lemma self_mem_addKey (l : List SlotKey) (k : SlotKey) : k ∈ addKey l k := by
  rw [addKey]
  split
  · assumption
  · exact List.mem_cons_self _ _

lemma addKey_of_not_mem {l : List SlotKey} {k : SlotKey} (h : k ∉ l) :
    addKey l k = k :: l := by
  simp [addKey, h]

lemma dayCount_addKey_same {l : List SlotKey} {k : SlotKey} {d : Nat}
    (h : k ∉ l) (hd : k.1 = d) :
    dayCount (addKey l k) d = dayCount l d + 1 := by
  subst hd
  simp [addKey, h, dayCount, List.filter_cons]

lemma dayCount_addKey_other {l : List SlotKey} {k : SlotKey} {d : Nat}
    (hd : k.1 ≠ d) : dayCount (addKey l k) d = dayCount l d := by
  by_cases h : k ∈ l <;> simp [addKey, h, dayCount, List.filter_cons, hd]

lemma find_teacher_spec {teachers : List Teacher} {ts : Slot}
    {m : ScheduleMatrix} {t : Teacher}
    (h : find_available_teacher_for_slot teachers ts m = some t) :
    t ∈ teachers ∧ slotKey ts ∉ m.teacher_schedule t.id ∧
      dayCount (m.teacher_schedule t.id) ts.date < t.max_classes_per_day.getD 6 := by
  rw [find_available_teacher_for_slot] at h
  have hmem := List.mem_of_find?_eq_some h
  have hp := List.find?_some h
  simp only [Bool.and_eq_true, decide_eq_true_iff] at hp
  exact ⟨hmem, hp.1, hp.2⟩

lemma find_classroom_spec {classrooms : List Classroom} {ts : Slot}
    {m : ScheduleMatrix} {r : Classroom}
    (h : find_available_classroom_for_slot classrooms ts m = some r) :
    r ∈ classrooms ∧ slotKey ts ∉ m.classroom_schedule r.id := by
  rw [find_available_classroom_for_slot] at h
  have hmem := List.mem_of_find?_eq_some h
  have hp := List.find?_some h
  simp only [decide_eq_true_iff] at hp
  exact ⟨hmem, hp⟩

lemma find_available_teachers_subset {s : Subject} {teachers : List Teacher}
    {t : Teacher} (h : t ∈ find_available_teachers s teachers) : t ∈ teachers := by
  simp only [find_available_teachers] at h
  split at h
  · exact List.mem_of_mem_take h
  · exact List.mem_of_mem_filter h

lemma take_one_of_ne_nil {α : Type} {l : List α} (h : l ≠ []) :
    l.take 1 = [l.head h] := by
  cases l with
  | nil => exact absurd rfl h
  | cons a t => rfl

/-
Monotonicity: occupancy sets only grow, through every level of the call.
-/

lemma try_assign_mono_teacher (batch : Batch) (subject : Subject)
    (avail : List Teacher) (rooms : List Classroom) (ts : Slot)
    (m : ScheduleMatrix) (c : List Conflict) (bs : List TimetableSlot)
    (τ : Nat) (k : SlotKey) (h : k ∈ m.teacher_schedule τ) :
    k ∈ (try_assign_slot batch subject avail rooms ts m c bs).matrix.teacher_schedule τ := by
  rw [try_assign_slot]
  cases h1 : find_available_teacher_for_slot avail ts m with
  | none => simpa using h
  | some t =>
    cases h2 : find_available_classroom_for_slot rooms ts m with
    | none => simpa using h
    | some r =>
      simp only [updSched]
      by_cases hτ : τ = t.id
      · subst hτ
        simpa using mem_addKey _ h
      · simpa [hτ] using h

lemma try_assign_mono_classroom (batch : Batch) (subject : Subject)
    (avail : List Teacher) (rooms : List Classroom) (ts : Slot)
    (m : ScheduleMatrix) (c : List Conflict) (bs : List TimetableSlot)
    (ρ : Nat) (k : SlotKey) (h : k ∈ m.classroom_schedule ρ) :
    k ∈ (try_assign_slot batch subject avail rooms ts m c bs).matrix.classroom_schedule ρ := by
  rw [try_assign_slot]
  cases h1 : find_available_teacher_for_slot avail ts m with
  | none => simpa using h
  | some t =>
    cases h2 : find_available_classroom_for_slot rooms ts m with
    | none => simpa using h
    | some r =>
      simp only [updSched]
      by_cases hρ : ρ = r.id
      · subst hρ
        simpa using mem_addKey _ h
      · simpa [hρ] using h

lemma assignLoop_mono_teacher (batch : Batch) (subject : Subject)
    (avail : List Teacher) (rooms : List Classroom) (needed : Nat)
    (remaining : List Slot) : ∀ (idx ca : Nat) (m : ScheduleMatrix)
      (c : List Conflict) (bs : List TimetableSlot) (τ : Nat) (k : SlotKey),
      k ∈ m.teacher_schedule τ →
      k ∈ (assignLoop batch subject avail rooms needed remaining idx ca m c bs).matrix.teacher_schedule τ := by
  induction remaining with
  | nil => intro idx ca m c bs τ k h; simpa [assignLoop] using h
  | cons ts rest ih =>
    intro idx ca m c bs τ k h
    rw [assignLoop]
    by_cases hc : ca < needed
    · rw [if_pos hc]
      exact ih _ _ _ _ _ τ k
        (try_assign_mono_teacher batch subject avail rooms ts m c bs τ k h)
    · rw [if_neg hc]
      simpa using h

lemma assignLoop_mono_classroom (batch : Batch) (subject : Subject)
    (avail : List Teacher) (rooms : List Classroom) (needed : Nat)
    (remaining : List Slot) : ∀ (idx ca : Nat) (m : ScheduleMatrix)
      (c : List Conflict) (bs : List TimetableSlot) (ρ : Nat) (k : SlotKey),
      k ∈ m.classroom_schedule ρ →
      k ∈ (assignLoop batch subject avail rooms needed remaining idx ca m c bs).matrix.classroom_schedule ρ := by
  induction remaining with
  | nil => intro idx ca m c bs ρ k h; simpa [assignLoop] using h
  | cons ts rest ih =>
    intro idx ca m c bs ρ k h
    rw [assignLoop]
    by_cases hc : ca < needed
    · rw [if_pos hc]
      exact ih _ _ _ _ _ ρ k
        (try_assign_mono_classroom batch subject avail rooms ts m c bs ρ k h)
    · rw [if_neg hc]
      simpa using h

lemma subjectsLoop_mono_teacher (batch : Batch) (teachers : List Teacher)
    (rooms : List Classroom) (reqs : Nat → Nat) (subjects : List Subject) :
    ∀ (remaining : List Slot) (idx : Nat) (m : ScheduleMatrix)
      (c : List Conflict) (bs : List TimetableSlot) (τ : Nat) (k : SlotKey),
      k ∈ m.teacher_schedule τ →
      k ∈ (subjectsLoop batch teachers rooms reqs subjects remaining idx m c bs).matrix.teacher_schedule τ := by
  induction subjects with
  | nil => intro remaining idx m c bs τ k h; simpa [subjectsLoop] using h
  | cons s rest ih =>
    intro remaining idx m c bs τ k h
    rw [subjectsLoop]
    exact ih _ _ _ _ _ τ k
      (assignLoop_mono_teacher batch s _ rooms _ remaining idx 0 m c bs τ k h)

lemma subjectsLoop_mono_classroom (batch : Batch) (teachers : List Teacher)
    (rooms : List Classroom) (reqs : Nat → Nat) (subjects : List Subject) :
    ∀ (remaining : List Slot) (idx : Nat) (m : ScheduleMatrix)
      (c : List Conflict) (bs : List TimetableSlot) (ρ : Nat) (k : SlotKey),
      k ∈ m.classroom_schedule ρ →
      k ∈ (subjectsLoop batch teachers rooms reqs subjects remaining idx m c bs).matrix.classroom_schedule ρ := by
  induction subjects with
  | nil => intro remaining idx m c bs ρ k h; simpa [subjectsLoop] using h
  | cons s rest ih =>
    intro remaining idx m c bs ρ k h
    rw [subjectsLoop]
    exact ih _ _ _ _ _ ρ k
      (assignLoop_mono_classroom batch s _ rooms _ remaining idx 0 m c bs ρ k h)

lemma batchesLoop_mono_teacher (subjects : List Subject) (teachers : List Teacher)
    (rooms : List Classroom) (time_slots : List Slot) (batches : List Batch) :
    ∀ (m : ScheduleMatrix) (c : List Conflict) (acc : List TimetableSlot)
      (res : List TimetableSlot × List Conflict × ScheduleMatrix),
      batchesLoop subjects teachers rooms time_slots batches m c acc = Except.ok res →
      ∀ (τ : Nat) (k : SlotKey), k ∈ m.teacher_schedule τ →
        k ∈ res.2.2.teacher_schedule τ := by
  induction batches with
  | nil =>
    intro m c acc res hok τ k h
    rw [batchesLoop] at hok
    cases hok
    simpa using h
  | cons b rest ih =>
    intro m c acc res hok τ k h
    rw [batchesLoop] at hok
    cases hb : b.subjects with
    | none => rw [hb] at hok; cases hok
    | some bs =>
      rw [hb] at hok
      exact ih _ _ _ _ hok τ k
        (subjectsLoop_mono_teacher b teachers rooms _ _ _ _ m c [] τ k h)

lemma batchesLoop_mono_classroom (subjects : List Subject) (teachers : List Teacher)
    (rooms : List Classroom) (time_slots : List Slot) (batches : List Batch) :
    ∀ (m : ScheduleMatrix) (c : List Conflict) (acc : List TimetableSlot)
      (res : List TimetableSlot × List Conflict × ScheduleMatrix),
      batchesLoop subjects teachers rooms time_slots batches m c acc = Except.ok res →
      ∀ (ρ : Nat) (k : SlotKey), k ∈ m.classroom_schedule ρ →
        k ∈ res.2.2.classroom_schedule ρ := by
  induction batches with
  | nil =>
    intro m c acc res hok ρ k h
    rw [batchesLoop] at hok
    cases hok
    simpa using h
  | cons b rest ih =>
    intro m c acc res hok ρ k h
    rw [batchesLoop] at hok
    cases hb : b.subjects with
    | none => rw [hb] at hok; cases hok
    | some bs =>
      rw [hb] at hok
      exact ih _ _ _ _ hok ρ k
        (subjectsLoop_mono_classroom b teachers rooms _ _ _ _ m c [] ρ k h)

/-- C3 (amended): for every request whose window end is a valid time of day,
the generated slots are exactly, in date-ascending then start-ascending
order, the hour slots of the permitted weekdays of the inclusive date range,
starting at the daily window start, a slot being included only if its end
taken as a time of day modulo 24 hours does not exceed the window end; an
inverted date range yields the empty sequence. -/
theorem C3_time_slot_enumeration (req : TimetableRequest)
    (h : req.end_time < 1440) :
    generate_time_slots req = specTimeSlotsMod req := by
  rw [generate_time_slots, dayLoopAux_eq, specTimeSlotsMod]
  have hfun : (fun d => hour_slots d req.start_time req.end_time)
      = (fun d => ((List.range ((req.end_time - req.start_time + 59) / 60)).filter
          (fun k => decide ((req.start_time + 60 * (k + 1)) % 1440 ≤ req.end_time))).map
        (fun k => (⟨d, d % 7, req.start_time + 60 * k,
                   (req.start_time + 60 * (k + 1)) % 1440⟩ : Slot))) :=
    funext fun d => hour_slots_eq d req.start_time req.end_time h
  rw [hfun]

/-- C3 witness: the amended enumeration theorem applied to the concrete
two-slot request. -/
theorem C3_witness :
    req0.end_time < 1440 ∧ generate_time_slots req0 = specTimeSlotsMod req0 :=
  ⟨by decide, C3_time_slot_enumeration req0 (by decide)⟩

/-- C3 counterexample: for the window 23:30 to 23:59 the code emits the slot
23:30 with wrapped end 00:30, while the claimed enumeration, whose slots must
end within the window, is empty. -/
theorem C3_counterexample :
    generate_time_slots reqX = [⟨0, 0, 1410, 30⟩] ∧ specTimeSlots reqX = [] :=
  ⟨by decide, by decide⟩

end TT

namespace TT

/-- C7: in one assignment attempt, when no candidate teacher is free the
exact no-teacher message for the subject name, slot start time and day is
appended and nothing else changes; when a teacher is found but no classroom
is free the exact no-classroom message is appended, no row is emitted and
neither resource is reserved. -/
theorem C7_attempt_failure_messages (batch : Batch) (subject : Subject)
    (avail : List Teacher) (rooms : List Classroom) (ts : Slot)
    (m : ScheduleMatrix) (c : List Conflict) (bs : List TimetableSlot) :
    (find_available_teacher_for_slot avail ts m = none →
      try_assign_slot batch subject avail rooms ts m c bs =
        ⟨false, m, c ++ [Conflict.noTeacher subject.name ts.start_time ts.day], bs⟩) ∧
    (∀ tch, find_available_teacher_for_slot avail ts m = some tch →
      find_available_classroom_for_slot rooms ts m = none →
      try_assign_slot batch subject avail rooms ts m c bs =
        ⟨false, m, c ++ [Conflict.noClassroom subject.name ts.start_time ts.day], bs⟩) := by
  constructor
  · intro h1
    rw [try_assign_slot, h1]
  · intro tch h1 h2
    rw [try_assign_slot, h1, h2]

/-- C7 witness: with an empty teacher roster the no-teacher message is
appended; with one free teacher and no classroom the no-classroom message is
appended; in both cases state is otherwise untouched. -/
theorem C7_witness :
    (find_available_teacher_for_slot [] ts0 init_schedule_matrix = none ∧
      try_assign_slot b1 subj [] [] ts0 init_schedule_matrix [] [] =
        ⟨false, init_schedule_matrix, [Conflict.noTeacher "Math" 540 0], []⟩) ∧
    (find_available_teacher_for_slot [t1] ts0 init_schedule_matrix = some t1 ∧
      find_available_classroom_for_slot [] ts0 init_schedule_matrix = none ∧
      try_assign_slot b1 subj [t1] [] ts0 init_schedule_matrix [] [] =
        ⟨false, init_schedule_matrix, [Conflict.noClassroom "Math" 540 0], []⟩) :=
  ⟨⟨by decide,
    (C7_attempt_failure_messages b1 subj [] [] ts0 init_schedule_matrix [] []).1
      (by decide)⟩,
   ⟨by decide, by decide,
    (C7_attempt_failure_messages b1 subj [t1] [] ts0 init_schedule_matrix [] []).2
      t1 (by decide) (by decide)⟩⟩

/-- C8: a successful assignment for a batch whose sections list is present
emits exactly one row per section, in section-list order, all rows sharing
the subject, teacher, classroom, day, start and end of the one reservation,
and the reservation adds the single slot key to the chosen teacher and the
chosen classroom. -/
theorem C8_section_fanout (batch : Batch) (subject : Subject)
    (avail : List Teacher) (rooms : List Classroom) (ts : Slot)
    (m : ScheduleMatrix) (c : List Conflict) (bs : List TimetableSlot)
    (secs : List String) (hs : batch.sections = some secs)
    (ha : (try_assign_slot batch subject avail rooms ts m c bs).assigned = true) :
    ∃ tch cr,
      find_available_teacher_for_slot avail ts m = some tch ∧
      find_available_classroom_for_slot rooms ts m = some cr ∧
      (try_assign_slot batch subject avail rooms ts m c bs).batch_slots =
        bs ++ secs.map (fun x =>
          ⟨ts.day, ts.start_time, ts.end_time, subject.id, tch.id, cr.id,
           batch.id, x⟩) ∧
      ((try_assign_slot batch subject avail rooms ts m c bs).batch_slots).length =
        bs.length + secs.length ∧
      (try_assign_slot batch subject avail rooms ts m c bs).matrix =
        ⟨updSched m.teacher_schedule tch.id (slotKey ts),
         updSched m.classroom_schedule cr.id (slotKey ts)⟩ := by
  cases h1 : find_available_teacher_for_slot avail ts m with
  | none => rw [try_assign_slot, h1] at ha; simp at ha
  | some tch =>
    cases h2 : find_available_classroom_for_slot rooms ts m with
    | none => rw [try_assign_slot, h1, h2] at ha; simp at ha
    | some cr =>
      refine ⟨tch, cr, rfl, rfl, ?_, ?_, ?_⟩ <;>
        rw [try_assign_slot, h1, h2] <;> simp [hs]

/-- C8 witness: a two-section batch with one free teacher and classroom
yields exactly two rows sharing all assignment fields. -/
theorem C8_witness :
    b2sec.sections = some ["A", "B"] ∧
    (try_assign_slot b2sec subj [t1] [room1] ts0 init_schedule_matrix [] []).assigned
      = true ∧
    (∃ tch cr,
      find_available_teacher_for_slot [t1] ts0 init_schedule_matrix = some tch ∧
      find_available_classroom_for_slot [room1] ts0 init_schedule_matrix = some cr ∧
      (try_assign_slot b2sec subj [t1] [room1] ts0 init_schedule_matrix [] []).batch_slots =
        [] ++ (["A", "B"] : List String).map (fun x =>
          ⟨ts0.day, ts0.start_time, ts0.end_time, subj.id, tch.id, cr.id,
           b2sec.id, x⟩) ∧
      ((try_assign_slot b2sec subj [t1] [room1] ts0 init_schedule_matrix [] []).batch_slots).length =
        List.length ([] : List TimetableSlot) + (["A", "B"] : List String).length ∧
      (try_assign_slot b2sec subj [t1] [room1] ts0 init_schedule_matrix [] []).matrix =
        ⟨updSched init_schedule_matrix.teacher_schedule tch.id (slotKey ts0),
         updSched init_schedule_matrix.classroom_schedule cr.id (slotKey ts0)⟩) :=
  ⟨rfl, by decide,
   C8_section_fanout b2sec subj [t1] [room1] ts0 init_schedule_matrix [] []
     ["A", "B"] rfl (by decide)⟩

/-- C9: for a non-empty roster the candidate list is the roster-order filter
of teachers whose declared subjects contain the subject id or are empty, and
when this filter is empty it is exactly the singleton of the first roster
teacher; the candidate list is never empty. -/
theorem C9_candidate_teachers (s : Subject) (teachers : List Teacher)
    (h : teachers ≠ []) :
    (teachers.filter (fun t => decide (s.id ∈ t.subjects) || decide (t.subjects = [])) ≠ [] →
      find_available_teachers s teachers =
        teachers.filter (fun t => decide (s.id ∈ t.subjects) || decide (t.subjects = []))) ∧
    (teachers.filter (fun t => decide (s.id ∈ t.subjects) || decide (t.subjects = [])) = [] →
      find_available_teachers s teachers = [teachers.head h]) ∧
    find_available_teachers s teachers ≠ [] := by
  refine ⟨?_, ?_, ?_⟩
  · intro hne
    simp only [find_available_teachers]
    rw [if_neg hne]
  · intro he
    simp only [find_available_teachers]
    rw [if_pos he, take_one_of_ne_nil h]
  · simp only [find_available_teachers]
    split
    · rw [take_one_of_ne_nil h]
      exact List.cons_ne_nil _ _
    · assumption

/-- C9 witness: subject 9 matches no declared teacher, so the selector
falls back to the singleton of the first roster teacher; for subject 5 the
filter itself is returned; both are non-empty. -/
theorem C9_witness :
    ([t1] : List Teacher) ≠ [] ∧
    ([t1].filter (fun t => decide (subj2.id ∈ t.subjects) || decide (t.subjects = [])) = [] ∧
      find_available_teachers subj2 [t1] = [([t1] : List Teacher).head (by decide)]) ∧
    find_available_teachers subj2 [t1] ≠ [] :=
  ⟨by decide,
   ⟨by decide,
    (C9_candidate_teachers subj2 [t1] (by decide)).2.1 (by decide)⟩,
   (C9_candidate_teachers subj2 [t1] (by decide)).2.2⟩

/-- C10: with a present but empty sections list a successful attempt still
reserves the teacher and classroom and returns assigned (the flag that
advances the satisfied-class count) yet emits no row; with the sections key
absent exactly one row with section A is emitted. -/
theorem C10_sections_edge_cases (subject : Subject) (avail : List Teacher)
    (rooms : List Classroom) (ts : Slot) (m : ScheduleMatrix)
    (c : List Conflict) (bs : List TimetableSlot) :
    (∀ (batch : Batch) tch cr, batch.sections = some [] →
      find_available_teacher_for_slot avail ts m = some tch →
      find_available_classroom_for_slot rooms ts m = some cr →
      try_assign_slot batch subject avail rooms ts m c bs =
        ⟨true, ⟨updSched m.teacher_schedule tch.id (slotKey ts),
                updSched m.classroom_schedule cr.id (slotKey ts)⟩, c, bs⟩) ∧
    (∀ (batch : Batch) tch cr, batch.sections = none →
      find_available_teacher_for_slot avail ts m = some tch →
      find_available_classroom_for_slot rooms ts m = some cr →
      try_assign_slot batch subject avail rooms ts m c bs =
        ⟨true, ⟨updSched m.teacher_schedule tch.id (slotKey ts),
                updSched m.classroom_schedule cr.id (slotKey ts)⟩, c,
          bs ++ [⟨ts.day, ts.start_time, ts.end_time, subject.id, tch.id, cr.id,
                  batch.id, "A"⟩]⟩) := by
  constructor
  · intro batch tch cr hs h1 h2
    rw [try_assign_slot, h1, h2]
    simp [hs]
  · intro batch tch cr hs h1 h2
    rw [try_assign_slot, h1, h2]
    simp [hs]

/-- C10 witness: the empty-sections batch yields a reservation with no rows;
the batch without the sections key yields one row with section A. -/
theorem C10_witness :
    bEmptySec.sections = some [] ∧
    bNoSec.sections = none ∧
    try_assign_slot bEmptySec subj [t1] [room1] ts0 init_schedule_matrix [] [] =
      ⟨true, ⟨updSched init_schedule_matrix.teacher_schedule t1.id (slotKey ts0),
              updSched init_schedule_matrix.classroom_schedule room1.id (slotKey ts0)⟩,
        [], []⟩ ∧
    try_assign_slot bNoSec subj [t1] [room1] ts0 init_schedule_matrix [] [] =
      ⟨true, ⟨updSched init_schedule_matrix.teacher_schedule t1.id (slotKey ts0),
              updSched init_schedule_matrix.classroom_schedule room1.id (slotKey ts0)⟩,
        [], [] ++ [⟨ts0.day, ts0.start_time, ts0.end_time, subj.id, t1.id, room1.id,
                    bNoSec.id, "A"⟩]⟩ :=
  ⟨rfl, rfl,
   (C10_sections_edge_cases subj [t1] [room1] ts0 init_schedule_matrix [] []).1
     bEmptySec t1 room1 rfl (by decide) (by decide),
   (C10_sections_edge_cases subj [t1] [room1] ts0 init_schedule_matrix [] []).2
     bNoSec t1 room1 rfl (by decide) (by decide)⟩

end TT

namespace TT

/-- C1: reservations are the unit of uniqueness for teacher and classroom
occupancy. Part one: a successful attempt always picks a teacher and a
classroom whose occupancy sets do not yet hold the slot key, pushes that key
onto exactly those two sets, and fans its output rows out of that single
reservation. Part two: a key present in any occupancy set persists to the
end of the call, so a (resource, key) pair can never be reserved by two
distinct successful attempts of one call. -/
theorem C1_reservation_uniqueness :
    (∀ (batch : Batch) (subject : Subject) (avail : List Teacher)
       (rooms : List Classroom) (ts : Slot) (m : ScheduleMatrix)
       (c : List Conflict) (bs : List TimetableSlot),
      (try_assign_slot batch subject avail rooms ts m c bs).assigned = true →
      ∃ tch cr, tch ∈ avail ∧ cr ∈ rooms ∧
        slotKey ts ∉ m.teacher_schedule tch.id ∧
        slotKey ts ∉ m.classroom_schedule cr.id ∧
        (try_assign_slot batch subject avail rooms ts m c bs).matrix.teacher_schedule tch.id =
          slotKey ts :: m.teacher_schedule tch.id ∧
        (try_assign_slot batch subject avail rooms ts m c bs).matrix.classroom_schedule cr.id =
          slotKey ts :: m.classroom_schedule cr.id ∧
        (try_assign_slot batch subject avail rooms ts m c bs).batch_slots =
          bs ++ (batch.sections.getD ["A"]).map (fun x =>
            ⟨ts.day, ts.start_time, ts.end_time, subject.id, tch.id, cr.id,
             batch.id, x⟩)) ∧
    (∀ (subjects : List Subject) (teachers : List Teacher)
       (rooms : List Classroom) (time_slots : List Slot) (batches : List Batch)
       (m : ScheduleMatrix) (c : List Conflict) (acc : List TimetableSlot)
       (res : List TimetableSlot × List Conflict × ScheduleMatrix),
      batchesLoop subjects teachers rooms time_slots batches m c acc = Except.ok res →
      (∀ τ k, k ∈ m.teacher_schedule τ → k ∈ res.2.2.teacher_schedule τ) ∧
      (∀ ρ k, k ∈ m.classroom_schedule ρ → k ∈ res.2.2.classroom_schedule ρ)) := by
  constructor
  · intro batch subject avail rooms ts m c bs ha
    cases h1 : find_available_teacher_for_slot avail ts m with
    | none => rw [try_assign_slot, h1] at ha; simp at ha
    | some tch =>
      cases h2 : find_available_classroom_for_slot rooms ts m with
      | none => rw [try_assign_slot, h1, h2] at ha; simp at ha
      | some cr =>
        obtain ⟨htm, htf, _⟩ := find_teacher_spec h1
        obtain ⟨hcm, hcf⟩ := find_classroom_spec h2
        refine ⟨tch, cr, htm, hcm, htf, hcf, ?_, ?_, ?_⟩ <;>
          rw [try_assign_slot, h1, h2] <;>
          simp [updSched, addKey_of_not_mem htf, addKey_of_not_mem hcf]
  · intro subjects teachers rooms time_slots batches m c acc res hok
    exact ⟨fun τ k hk =>
        batchesLoop_mono_teacher subjects teachers rooms time_slots batches
          m c acc res hok τ k hk,
      fun ρ k hk =>
        batchesLoop_mono_classroom subjects teachers rooms time_slots batches
          m c acc res hok ρ k hk⟩

/-- C1 witness: a concrete successful attempt exhibits the fresh reservation
and fan-out, and a concrete call started from a mid-call matrix keeps the
pre-existing occupancy keys in the final matrix. -/
theorem C1_witness :
    (∃ tch cr, tch ∈ [t1] ∧ cr ∈ [room1] ∧
      slotKey ts0 ∉ init_schedule_matrix.teacher_schedule tch.id ∧
      slotKey ts0 ∉ init_schedule_matrix.classroom_schedule cr.id ∧
      (try_assign_slot b1 subj [t1] [room1] ts0 init_schedule_matrix [] []).matrix.teacher_schedule tch.id =
        slotKey ts0 :: init_schedule_matrix.teacher_schedule tch.id ∧
      (try_assign_slot b1 subj [t1] [room1] ts0 init_schedule_matrix [] []).matrix.classroom_schedule cr.id =
        slotKey ts0 :: init_schedule_matrix.classroom_schedule cr.id ∧
      (try_assign_slot b1 subj [t1] [room1] ts0 init_schedule_matrix [] []).batch_slots =
        [] ++ (b1.sections.getD ["A"]).map (fun x =>
          ⟨ts0.day, ts0.start_time, ts0.end_time, subj.id, tch.id, cr.id,
           b1.id, x⟩)) ∧
    ((0, 540) ∈
      (⟨[⟨0, 600, 660, 5, 1, 2, 7, "A"⟩], [],
        ⟨updSched mPre.teacher_schedule 1 (0, 600),
         updSched mPre.classroom_schedule 2 (0, 600)⟩⟩ :
        List TimetableSlot × List Conflict × ScheduleMatrix).2.2.teacher_schedule 1 ∧
     (0, 540) ∈
      (⟨[⟨0, 600, 660, 5, 1, 2, 7, "A"⟩], [],
        ⟨updSched mPre.teacher_schedule 1 (0, 600),
         updSched mPre.classroom_schedule 2 (0, 600)⟩⟩ :
        List TimetableSlot × List Conflict × ScheduleMatrix).2.2.classroom_schedule 2) :=
  ⟨C1_reservation_uniqueness.1 b1 subj [t1] [room1] ts0 init_schedule_matrix [] []
     (by decide),
   ⟨(C1_reservation_uniqueness.2 [subj] [t1] [room1] [ts1] [b1] mPre [] [] _
       rfl).1 1 (0, 540) (by decide),
    (C1_reservation_uniqueness.2 [subj] [t1] [room1] [ts1] [b1] mPre [] [] _
       rfl).2 2 (0, 540) (by decide)⟩⟩

end TT

namespace TT

lemma pairwise_id_inj {teachers : List Teacher}
    (hids : teachers.Pairwise (fun a b => a.id ≠ b.id)) {a b : Teacher}
    (ha : a ∈ teachers) (hb : b ∈ teachers) (hid : a.id = b.id) : a = b := by
  by_contra hne
  have hsymm : Symmetric (fun a b : Teacher => a.id ≠ b.id) :=
    fun x y h e => h e.symm
  exact List.Pairwise.forall hsymm hids ha hb hne hid

lemma try_assign_teacher_inv {teachers : List Teacher} (batch : Batch)
    (subject : Subject) {avail : List Teacher} (rooms : List Classroom)
    (ts : Slot) {m : ScheduleMatrix} (c : List Conflict)
    (bs : List TimetableSlot)
    (hids : teachers.Pairwise (fun a b => a.id ≠ b.id))
    (hsub : ∀ t ∈ avail, t ∈ teachers) (hinv : TeacherInv teachers m) :
    TeacherInv teachers (try_assign_slot batch subject avail rooms ts m c bs).matrix := by
  cases h1 : find_available_teacher_for_slot avail ts m with
  | none => simp only [try_assign_slot, h1]; exact hinv
  | some tch =>
    cases h2 : find_available_classroom_for_slot rooms ts m with
    | none => simp only [try_assign_slot, h1, h2]; exact hinv
    | some cr =>
      obtain ⟨htm, htf, htc⟩ := find_teacher_spec h1
      intro t ht d
      simp only [try_assign_slot, h1, h2, updSched]
      by_cases hid : t.id = tch.id
      · have hteq : t = tch := pairwise_id_inj hids ht (hsub tch htm) hid
        subst hteq
        rw [if_pos rfl]
        by_cases hd : ts.date = d
        · subst hd
          rw [dayCount_addKey_same htf (show (slotKey ts).1 = ts.date from rfl)]
          omega
        · rw [dayCount_addKey_other hd]
          exact hinv t ht d
      · rw [if_neg hid]
        exact hinv t ht d

lemma assignLoop_teacher_inv {teachers : List Teacher} (batch : Batch)
    (subject : Subject) {avail : List Teacher} (rooms : List Classroom)
    (needed : Nat) (remaining : List Slot)
    (hids : teachers.Pairwise (fun a b => a.id ≠ b.id))
    (hsub : ∀ t ∈ avail, t ∈ teachers) :
    ∀ (idx ca : Nat) (m : ScheduleMatrix) (c : List Conflict)
      (bs : List TimetableSlot), TeacherInv teachers m →
      TeacherInv teachers
        (assignLoop batch subject avail rooms needed remaining idx ca m c bs).matrix := by
  induction remaining with
  | nil => intro idx ca m c bs hinv; simpa [assignLoop] using hinv
  | cons ts rest ih =>
    intro idx ca m c bs hinv
    rw [assignLoop]
    by_cases hc : ca < needed
    · rw [if_pos hc]
      exact ih _ _ _ _ _
        (try_assign_teacher_inv batch subject rooms ts c bs hids hsub hinv)
    · rw [if_neg hc]
      simpa using hinv

lemma subjectsLoop_teacher_inv {teachers : List Teacher} (batch : Batch)
    (rooms : List Classroom) (reqs : Nat → Nat) (subjects : List Subject)
    (hids : teachers.Pairwise (fun a b => a.id ≠ b.id)) :
    ∀ (remaining : List Slot) (idx : Nat) (m : ScheduleMatrix)
      (c : List Conflict) (bs : List TimetableSlot), TeacherInv teachers m →
      TeacherInv teachers
        (subjectsLoop batch teachers rooms reqs subjects remaining idx m c bs).matrix := by
  induction subjects with
  | nil => intro remaining idx m c bs hinv; simpa [subjectsLoop] using hinv
  | cons s rest ih =>
    intro remaining idx m c bs hinv
    rw [subjectsLoop]
    exact ih _ _ _ _ _
      (assignLoop_teacher_inv batch s rooms _ remaining hids
        (fun t ht => find_available_teachers_subset ht) _ _ m c bs hinv)

lemma batchesLoop_teacher_inv {teachers : List Teacher}
    (subjects : List Subject) (rooms : List Classroom)
    (time_slots : List Slot) (batches : List Batch)
    (hids : teachers.Pairwise (fun a b => a.id ≠ b.id)) :
    ∀ (m : ScheduleMatrix) (c : List Conflict) (acc : List TimetableSlot)
      (res : List TimetableSlot × List Conflict × ScheduleMatrix),
      TeacherInv teachers m →
      batchesLoop subjects teachers rooms time_slots batches m c acc = Except.ok res →
      TeacherInv teachers res.2.2 := by
  induction batches with
  | nil =>
    intro m c acc res hinv hok
    rw [batchesLoop] at hok
    cases hok
    exact hinv
  | cons b rest ih =>
    intro m c acc res hinv hok
    rw [batchesLoop] at hok
    cases hb : b.subjects with
    | none => rw [hb] at hok; cases hok
    | some bsub =>
      rw [hb] at hok
      exact ih _ _ _ _
        (subjectsLoop_teacher_inv b rooms _ _ hids _ _ m c [] hinv) hok

/-- C2: with a roster of distinct teacher ids, the daily-cap invariant is
preserved by every single assignment attempt (the only operation that
mutates occupancy), and over any full call that returns successfully the
final occupancy of a teacher whose record carries max_classes_per_day never
exceeds that value on any date. -/
theorem C2_daily_cap (teachers : List Teacher)
    (hids : teachers.Pairwise (fun a b => a.id ≠ b.id)) :
    (∀ (batch : Batch) (subject : Subject) (avail : List Teacher)
       (rooms : List Classroom) (ts : Slot) (m : ScheduleMatrix)
       (c : List Conflict) (bs : List TimetableSlot),
      (∀ t ∈ avail, t ∈ teachers) → TeacherInv teachers m →
      TeacherInv teachers (try_assign_slot batch subject avail rooms ts m c bs).matrix) ∧
    (∀ (subjects : List Subject) (rooms : List Classroom)
       (time_slots : List Slot) (batches : List Batch) (m : ScheduleMatrix)
       (c : List Conflict) (acc : List TimetableSlot)
       (res : List TimetableSlot × List Conflict × ScheduleMatrix),
      TeacherInv teachers m →
      batchesLoop subjects teachers rooms time_slots batches m c acc = Except.ok res →
      ∀ t ∈ teachers, ∀ μ, t.max_classes_per_day = some μ →
        ∀ d, dayCount (res.2.2.teacher_schedule t.id) d ≤ μ) := by
  constructor
  · intro batch subject avail rooms ts m c bs hsub hinv
    exact try_assign_teacher_inv batch subject rooms ts c bs hids hsub hinv
  · intro subjects rooms time_slots batches m c acc res hinv hok t ht μ hμ d
    have := batchesLoop_teacher_inv subjects rooms time_slots batches hids
      m c acc res hinv hok t ht d
    rwa [hμ, Option.getD_some] at this

/-- C2 witness: a call with a cap-one teacher keeps that teacher at one
occupied key on the single date of the run. -/
theorem C2_witness :
    TeacherInv [t2] init_schedule_matrix ∧
    dayCount
      ((⟨[⟨0, 540, 600, 5, 3, 2, 7, "A"⟩], [],
        ⟨updSched init_schedule_matrix.teacher_schedule 3 (0, 540),
         updSched init_schedule_matrix.classroom_schedule 2 (0, 540)⟩⟩ :
        List TimetableSlot × List Conflict × ScheduleMatrix).2.2.teacher_schedule t2.id)
      0 ≤ 1 :=
  have hinv : TeacherInv [t2] init_schedule_matrix := by
    intro t ht d
    simp [init_schedule_matrix, dayCount]
  ⟨hinv,
   (C2_daily_cap [t2] (by simp)).2 [subj] [room1] [ts0, ts1] [b1]
     init_schedule_matrix [] [] _ hinv rfl t2 (by simp) 1 rfl 0⟩

end TT

namespace TT

lemma try_assign_conflicts_cases (batch : Batch) (subject : Subject)
    (avail : List Teacher) (rooms : List Classroom) (ts : Slot)
    (m : ScheduleMatrix) (c : List Conflict) (bs : List TimetableSlot) :
    ((try_assign_slot batch subject avail rooms ts m c bs).assigned = true ∧
      (try_assign_slot batch subject avail rooms ts m c bs).conflicts = c) ∨
    ((try_assign_slot batch subject avail rooms ts m c bs).assigned = false ∧
      ∃ x, attemptMessage x ∧
        (try_assign_slot batch subject avail rooms ts m c bs).conflicts = c ++ [x]) := by
  cases h1 : find_available_teacher_for_slot avail ts m with
  | none =>
    right
    rw [try_assign_slot, h1]
    exact ⟨rfl, ⟨Conflict.noTeacher subject.name ts.start_time ts.day,
      ⟨subject.name, ts.start_time, ts.day, Or.inl rfl⟩, rfl⟩⟩
  | some tch =>
    cases h2 : find_available_classroom_for_slot rooms ts m with
    | none =>
      right
      rw [try_assign_slot, h1, h2]
      exact ⟨rfl, ⟨Conflict.noClassroom subject.name ts.start_time ts.day,
        ⟨subject.name, ts.start_time, ts.day, Or.inr rfl⟩, rfl⟩⟩
    | some cr =>
      left
      rw [try_assign_slot, h1, h2]
      exact ⟨rfl, rfl⟩

lemma assignLoop_cursor (batch : Batch) (subject : Subject)
    (avail : List Teacher) (rooms : List Classroom) (needed : Nat)
    (remaining : List Slot) :
    ∀ (idx ca : Nat) (m : ScheduleMatrix) (c : List Conflict)
      (bs : List TimetableSlot),
      ∃ n, n ≤ remaining.length ∧
        (assignLoop batch subject avail rooms needed remaining idx ca m c bs).slot_index
          = idx + n ∧
        (assignLoop batch subject avail rooms needed remaining idx ca m c bs).remaining
          = remaining.drop n := by
  induction remaining with
  | nil =>
    intro idx ca m c bs
    exact ⟨0, by simp, by simp [assignLoop], by simp [assignLoop]⟩
  | cons ts rest ih =>
    intro idx ca m c bs
    by_cases hc : ca < needed
    · obtain ⟨n, hn, hidx, hrem⟩ := ih (idx + 1)
        (if (try_assign_slot batch subject avail rooms ts m c bs).assigned
          then ca + 1 else ca)
        (try_assign_slot batch subject avail rooms ts m c bs).matrix
        (try_assign_slot batch subject avail rooms ts m c bs).conflicts
        (try_assign_slot batch subject avail rooms ts m c bs).batch_slots
      refine ⟨n + 1, ?_, ?_, ?_⟩
      · simpa using Nat.succ_le_succ hn
      · simp only [assignLoop, if_pos hc]
        rw [hidx]
        omega
      · simp only [assignLoop, if_pos hc]
        rw [hrem]
        rfl
    · refine ⟨0, Nat.zero_le _, ?_, ?_⟩ <;>
        · rw [assignLoop, if_neg hc]
          rfl

/-- C5: within one batch the slot cursor is shared and never reset:
every attempt consumes exactly the next slot and advances the cursor by one
whether or not the attempt succeeds; the subject loop hands the cursor state
returned by one subject directly to the next subject; and over any run the
final cursor equals the starting index plus the number of slots consumed
from the front of the shared sequence. -/
theorem C5_shared_cursor :
    (∀ (batch : Batch) (subject : Subject) (avail : List Teacher)
       (rooms : List Classroom) (needed : Nat) (ts : Slot) (rest : List Slot)
       (idx ca : Nat) (m : ScheduleMatrix) (c : List Conflict)
       (bs : List TimetableSlot), ca < needed →
      assignLoop batch subject avail rooms needed (ts :: rest) idx ca m c bs =
        assignLoop batch subject avail rooms needed rest (idx + 1)
          (if (try_assign_slot batch subject avail rooms ts m c bs).assigned
            then ca + 1 else ca)
          (try_assign_slot batch subject avail rooms ts m c bs).matrix
          (try_assign_slot batch subject avail rooms ts m c bs).conflicts
          (try_assign_slot batch subject avail rooms ts m c bs).batch_slots) ∧
    (∀ (batch : Batch) (teachers : List Teacher) (rooms : List Classroom)
       (reqs : Nat → Nat) (s : Subject) (rest : List Subject)
       (remaining : List Slot) (idx : Nat) (m : ScheduleMatrix)
       (c : List Conflict) (bs : List TimetableSlot),
      subjectsLoop batch teachers rooms reqs (s :: rest) remaining idx m c bs =
        subjectsLoop batch teachers rooms reqs rest
          (assignLoop batch s (find_available_teachers s teachers) rooms
            (reqs s.id) remaining idx 0 m c bs).remaining
          (assignLoop batch s (find_available_teachers s teachers) rooms
            (reqs s.id) remaining idx 0 m c bs).slot_index
          (assignLoop batch s (find_available_teachers s teachers) rooms
            (reqs s.id) remaining idx 0 m c bs).matrix
          (assignLoop batch s (find_available_teachers s teachers) rooms
            (reqs s.id) remaining idx 0 m c bs).conflicts
          (assignLoop batch s (find_available_teachers s teachers) rooms
            (reqs s.id) remaining idx 0 m c bs).batch_slots) ∧
    (∀ (batch : Batch) (subject : Subject) (avail : List Teacher)
       (rooms : List Classroom) (needed : Nat) (remaining : List Slot)
       (idx ca : Nat) (m : ScheduleMatrix) (c : List Conflict)
       (bs : List TimetableSlot),
      ∃ n, n ≤ remaining.length ∧
        (assignLoop batch subject avail rooms needed remaining idx ca m c bs).slot_index
          = idx + n ∧
        (assignLoop batch subject avail rooms needed remaining idx ca m c bs).remaining
          = remaining.drop n) := by
  refine ⟨?_, ?_, ?_⟩
  · intro batch subject avail rooms needed ts rest idx ca m c bs hc
    rw [assignLoop, if_pos hc]
  · intro batch teachers rooms reqs s rest remaining idx m c bs
    rw [subjectsLoop]

  · intro batch subject avail rooms needed remaining idx ca m c bs
    exact assignLoop_cursor batch subject avail rooms needed remaining idx ca m c bs

/-- C5 witness: one attempt on the concrete two-slot run advances the cursor
by exactly one, and the concrete subject loop resumes the second subject at
the cursor returned by the first. -/
theorem C5_witness :
    (0 < 1 ∧
      assignLoop b1 subj [t1] [room1] 1 [ts0, ts1] 0 0 init_schedule_matrix [] [] =
        assignLoop b1 subj [t1] [room1] 1 [ts1] 1
          (if (try_assign_slot b1 subj [t1] [room1] ts0 init_schedule_matrix [] []).assigned
            then 1 else 0)
          (try_assign_slot b1 subj [t1] [room1] ts0 init_schedule_matrix [] []).matrix
          (try_assign_slot b1 subj [t1] [room1] ts0 init_schedule_matrix [] []).conflicts
          (try_assign_slot b1 subj [t1] [room1] ts0 init_schedule_matrix [] []).batch_slots) ∧
    (∃ n, n ≤ 2 ∧
      (assignLoop b1 subj [t1] [room1] 1 [ts0, ts1] 0 0 init_schedule_matrix [] []).slot_index
        = 0 + n ∧
      (assignLoop b1 subj [t1] [room1] 1 [ts0, ts1] 0 0 init_schedule_matrix [] []).remaining
        = List.drop n [ts0, ts1]) :=
  ⟨⟨Nat.zero_lt_one,
    C5_shared_cursor.1 b1 subj [t1] [room1] 1 ts0 [ts1] 0 0
      init_schedule_matrix [] [] Nat.zero_lt_one⟩,
   C5_shared_cursor.2.2 b1 subj [t1] [room1] 1 [ts0, ts1] 0 0
     init_schedule_matrix [] []⟩

end TT

namespace TT

/-- C6: over any run of the per-subject loop the conflict log grows only by
per-attempt unavailability messages: the new entries number exactly the
failed attempts (new plus successes equals slots consumed), and when the
loop ends short of the requirement the shared slot sequence is exhausted,
with no further message recording the shortfall. -/
theorem C6_shortfall_is_silent (batch : Batch) (subject : Subject)
    (avail : List Teacher) (rooms : List Classroom) (needed : Nat)
    (remaining : List Slot) :
    ∀ (idx ca : Nat) (m : ScheduleMatrix) (c : List Conflict)
      (bs : List TimetableSlot),
      ∃ new succ n,
        (assignLoop batch subject avail rooms needed remaining idx ca m c bs).conflicts
          = c ++ new ∧
        (∀ x ∈ new, attemptMessage x) ∧
        (assignLoop batch subject avail rooms needed remaining idx ca m c bs).slot_index
          = idx + n ∧
        (assignLoop batch subject avail rooms needed remaining idx ca m c bs).classes_assigned
          = ca + succ ∧
        new.length + succ = n ∧
        ((assignLoop batch subject avail rooms needed remaining idx ca m c bs).classes_assigned
            < needed →
          (assignLoop batch subject avail rooms needed remaining idx ca m c bs).remaining
            = []) := by
  induction remaining with
  | nil =>
    intro idx ca m c bs
    refine ⟨[], 0, 0, by simp [assignLoop], by simp, by simp [assignLoop],
      by simp [assignLoop], by simp, fun _ => by simp [assignLoop]⟩
  | cons ts rest ih =>
    intro idx ca m c bs
    by_cases hc : ca < needed
    · rcases try_assign_conflicts_cases batch subject avail rooms ts m c bs with
        ⟨ha, hcf⟩ | ⟨ha, x, hx, hcf⟩
      · obtain ⟨new, succ, n, h1, h2, h3, h4, h5, h6⟩ := ih (idx + 1)
          (if (try_assign_slot batch subject avail rooms ts m c bs).assigned
            then ca + 1 else ca)
          (try_assign_slot batch subject avail rooms ts m c bs).matrix
          (try_assign_slot batch subject avail rooms ts m c bs).conflicts
          (try_assign_slot batch subject avail rooms ts m c bs).batch_slots
      -- success: the attempt appends no conflict and counts one class
        refine ⟨new, succ + 1, n + 1, ?_, h2, ?_, ?_, by omega, ?_⟩
        · simp only [assignLoop, if_pos hc]
          rw [h1, hcf]
        · simp only [assignLoop, if_pos hc]
          rw [h3]
          omega
        · simp only [assignLoop, if_pos hc]
          rw [h4, ha, if_pos rfl]
          omega
        · intro hlt
          simp only [assignLoop, if_pos hc] at hlt ⊢
          exact h6 hlt
      · obtain ⟨new, succ, n, h1, h2, h3, h4, h5, h6⟩ := ih (idx + 1)
          (if (try_assign_slot batch subject avail rooms ts m c bs).assigned
            then ca + 1 else ca)
          (try_assign_slot batch subject avail rooms ts m c bs).matrix
          (try_assign_slot batch subject avail rooms ts m c bs).conflicts
          (try_assign_slot batch subject avail rooms ts m c bs).batch_slots
      -- failure: the attempt appends exactly one per-attempt message
        refine ⟨x :: new, succ, n + 1, ?_, ?_, ?_, ?_, by simp; omega, ?_⟩
        · simp only [assignLoop, if_pos hc]
          rw [h1, hcf, List.append_assoc]
          rfl
        · intro y hy
          rcases List.mem_cons.mp hy with hy | hy
          · rw [hy]; exact hx
          · exact h2 y hy
        · simp only [assignLoop, if_pos hc]
          rw [h3]
          omega
        · simp only [assignLoop, if_pos hc]
          rw [h4, ha, if_neg (by simp)]
        · intro hlt
          simp only [assignLoop, if_pos hc] at hlt ⊢
          exact h6 hlt
    · refine ⟨[], 0, 0, ?_, by simp, ?_, ?_, by simp, ?_⟩
      · rw [assignLoop, if_neg hc]
        simp
      · rw [assignLoop, if_neg hc]
        rfl
      · rw [assignLoop, if_neg hc]
        rfl
      · intro hlt
        rw [assignLoop, if_neg hc] at hlt
        exact absurd hlt hc

/-- C6 witness: a concrete run with no teachers and a requirement of three
classes over two slots ends exhausted with exactly the two per-attempt
messages and no extra shortfall message. -/
theorem C6_witness :
    ∃ new succ n,
      (assignLoop b1 subj [] [room1] 3 [ts0, ts1] 0 0 init_schedule_matrix [] []).conflicts
        = [] ++ new ∧
      (∀ x ∈ new, attemptMessage x) ∧
      (assignLoop b1 subj [] [room1] 3 [ts0, ts1] 0 0 init_schedule_matrix [] []).slot_index
        = 0 + n ∧
      (assignLoop b1 subj [] [room1] 3 [ts0, ts1] 0 0 init_schedule_matrix [] []).classes_assigned
        = 0 + succ ∧
      new.length + succ = n ∧
      ((assignLoop b1 subj [] [room1] 3 [ts0, ts1] 0 0 init_schedule_matrix [] []).classes_assigned
          < 3 →
        (assignLoop b1 subj [] [room1] 3 [ts0, ts1] 0 0 init_schedule_matrix [] []).remaining
          = []) :=
  C6_shortfall_is_silent b1 subj [] [room1] 3 [ts0, ts1] 0 0
    init_schedule_matrix [] []

end TT

namespace TT

lemma batchesLoop_append (subjects : List Subject) (teachers : List Teacher)
    (rooms : List Classroom) (time_slots : List Slot) (l1 : List Batch) :
    ∀ (l2 : List Batch) (m : ScheduleMatrix) (c : List Conflict)
      (acc : List TimetableSlot),
      batchesLoop subjects teachers rooms time_slots (l1 ++ l2) m c acc =
        match batchesLoop subjects teachers rooms time_slots l1 m c acc with
        | Except.ok (s, cc, mm) =>
          batchesLoop subjects teachers rooms time_slots l2 mm cc s
        | Except.error e => Except.error e := by
  induction l1 with
  | nil => intro l2 m c acc; rfl
  | cons b rest ih =>
    intro l2 m c acc
    cases hb : b.subjects with
    | none => simp only [List.cons_append, batchesLoop, hb]
    | some bsub =>
      simp only [List.cons_append, batchesLoop, hb]
      exact ih l2 _ _ _

/-- C4 (amended): when a malformed batch record aborts the call after a
well-formed prefix has been processed, the call returns no scheduled entries
(all partial rows are discarded), while the conflict log keeps every
attempt-level message accumulated before the failure and gains exactly one
final synthetic failure message. -/
theorem C4_abort_discards_entries (req : TimetableRequest)
    (subjects : List Subject) (teachers : List Teacher)
    (classrooms : List Classroom) (good : List Batch) (bad : Batch)
    (rest : List Batch) (s0 : List TimetableSlot) (c0 : List Conflict)
    (M0 : ScheduleMatrix)
    (hgood : batchesLoop subjects teachers classrooms (generate_time_slots req)
      good init_schedule_matrix [] [] = Except.ok (s0, c0, M0))
    (hbad : bad.subjects = none) :
    generate_timetable req (good ++ bad :: rest) subjects teachers classrooms
      = ([], c0 ++ [Conflict.failure "subjects"]) := by
  simp only [generate_timetable]
  rw [batchesLoop_append subjects teachers classrooms
    (generate_time_slots req) good (bad :: rest) init_schedule_matrix [] [],
    hgood]
  simp only [batchesLoop, hbad]

/-- C4 witness: one well-formed batch with an empty teacher roster logs two
attempt conflicts, then a batch without the subjects key aborts: the call
keeps both attempt messages, appends the single failure message, and
discards all entries. -/
theorem C4_witness :
    batchesLoop [subj] [] [room1] (generate_time_slots req0) [b1]
        init_schedule_matrix [] [] =
      Except.ok ([], [Conflict.noTeacher "Math" 540 0,
        Conflict.noTeacher "Math" 600 0], init_schedule_matrix) ∧
    badb.subjects = none ∧
    generate_timetable req0 ([b1] ++ badb :: []) [subj] [] [room1]
      = ([], [Conflict.noTeacher "Math" 540 0, Conflict.noTeacher "Math" 600 0]
          ++ [Conflict.failure "subjects"]) :=
  ⟨rfl, rfl,
   C4_abort_discards_entries req0 [subj] [] [room1] [b1] badb [] []
     [Conflict.noTeacher "Math" 540 0, Conflict.noTeacher "Math" 600 0]
     init_schedule_matrix rfl rfl⟩

/-- C4 counterexample: in the aborted call of the witness scenario the
returned conflict list has three entries, not exactly one, though the entry
list is empty as claimed; the pre-failure attempt conflicts survive. -/
theorem C4_counterexample :
    (generate_timetable req0 [b1, badb] [subj] [] [room1]).2.length = 3 ∧
    (generate_timetable req0 [b1, badb] [subj] [] [room1]).2 =
      [Conflict.noTeacher "Math" 540 0, Conflict.noTeacher "Math" 600 0,
       Conflict.failure "subjects"] ∧
    (generate_timetable req0 [b1, badb] [subj] [] [room1]).1 = [] := by
  refine ⟨?_, ?_, ?_⟩ <;> decide

end TT
